import Mathlib

/-!
Verification of the qr-pulse-pass admission-control logic: a shallow
embedding of the device-cooldown endpoints (the Vercel handler and the
Supabase edge function), the client-side cooldown guard and SecurePage
admission controllers, and the device-identifier fallback generators,
together with theorems settling the specification's claims.

Time is modelled in milliseconds as `Int`.  `handler` and `serveHandler`
model a request with a single clock reading `now`; `checkTwoClock`
additionally models the check path's two separate `Date.now()` readings
(threshold and remaining time), between which the awaited store query
lets the clock advance.  The record store is a list of submission rows
in database order (inserts append at the end).
-/

namespace QrPulsePass

/-- COOLDOWN_MINUTES * 60 * 1000, the 30-minute cooldown in ms. -/
def COOLDOWN_MS : Int := 30 * 60 * 1000

/-- One row of the `device_submissions` table. -/
structure SubmissionRecord where
  device_id : String
  submitted_at : Int
  name : Option String
  user_id_field : Option String
deriving Repr, DecidableEq

/-- The `device_submissions` table, rows in database order. -/
abbrev Store := List SubmissionRecord

/-- The filter applied by both endpoint queries:
`.eq('device_id', d).gte('submitted_at', threshold)`. -/
def matchesQuery (d : String) (threshold : Int) (r : SubmissionRecord) : Bool :=
  r.device_id == d && decide (threshold ≤ r.submitted_at)

/-- Maximum of a list of timestamps; `none` on the empty list.  Models the
`.order('submitted_at', ascending: false).limit(1)` query result. -/
def listMax? : List Int → Option Int
  | [] => none
  | x :: xs =>
    match listMax? xs with
    | none => some x
    | some m => some (max x m)

/-- The JSON request body of the cooldown endpoint.  An absent `device_id`
is modelled as the empty string: both are falsy in the handler's check. -/
structure CheckRequest where
  device_id : String
  action : String
  name : Option String
  user_id_field : Option String
deriving Repr, DecidableEq

/-- The JSON response of the cooldown endpoint, by shape. -/
inductive HandlerResponse where
  /-- An error response carrying its HTTP status and message. -/
  | err (status : Nat) (error : String)
  /-- The 200 response of `action=check`. -/
  | checkOk (inCooldown : Bool) (remaining : Int)
  /-- The 403 response of a blocked `action=submit`. -/
  | submitBlocked (remaining : Int)
  /-- The 200 response of an accepted `action=submit`. -/
  | submitOk (cooldownUntil : Int)
deriving Repr, DecidableEq

/-- HTTP status of a response. -/
def HandlerResponse.status : HandlerResponse → Nat
  | .err s _ => s
  | .checkOk _ _ => 200
  | .submitBlocked _ => 403
  | .submitOk _ => 200

/-- The `success` field of the response body, when present. -/
def HandlerResponse.successField : HandlerResponse → Option Bool
  | .err _ _ => some false
  | .checkOk _ _ => none
  | .submitBlocked _ => some false
  | .submitOk _ => some true

/-- The `inCooldown` field of the response body, when present. -/
def HandlerResponse.inCooldownField : HandlerResponse → Option Bool
  | .err _ _ => none
  | .checkOk b _ => some b
  | .submitBlocked _ => some true
  | .submitOk _ => none

/-- The `remaining` field of the response body, when present. -/
def HandlerResponse.remainingField : HandlerResponse → Option Int
  | .err _ _ => none
  | .checkOk _ r => some r
  | .submitBlocked r => some r
  | .submitOk _ => none

/-- Result of one request: the response, the store afterwards, and how many
store queries (reads) and inserts (writes) the request performed. -/
structure HandlerResult where
  response : HandlerResponse
  store : Store
  storeReads : Nat
  storeWrites : Nat
deriving Repr, DecidableEq

/-- JS `x || null` on an optional string field: empty string is falsy. -/
def orNull (o : Option String) : Option String :=
  match o with
  | some s => if s == "" then none else some s
  | none => none

/-- The Vercel `api/check-device-cooldown` handler (the default export of
the unnamed Vercel source file), for a POST request with a parsed body,
with the Supabase client assumed configured and the store queries
error-free.  `now` is the single `Date.now()` reading of the request. -/
def handler (store : Store) (now : Int) (req : CheckRequest) : HandlerResult :=
  if req.device_id == "" then
    ⟨.err 400 "Device ID is required", store, 0, 0⟩
  else
    let cooldownThreshold := now - COOLDOWN_MS
    if req.action == "check" then
      let submissions := store.filter (matchesQuery req.device_id cooldownThreshold)
      match listMax? (submissions.map (fun r => r.submitted_at)) with
      | some lastSubmission =>
        ⟨.checkOk true (lastSubmission + COOLDOWN_MS - now), store, 1, 0⟩
      | none =>
        ⟨.checkOk false 0, store, 1, 0⟩
    else if req.action == "submit" then
      let existingSubmissions := store.filter (matchesQuery req.device_id cooldownThreshold)
      match existingSubmissions.head? with
      | some lastSubmission =>
        ⟨.submitBlocked (lastSubmission.submitted_at + COOLDOWN_MS - now), store, 1, 0⟩
      | none =>
        let newRecord : SubmissionRecord :=
          ⟨req.device_id, now, orNull req.name, orNull req.user_id_field⟩
        ⟨.submitOk (now + COOLDOWN_MS), store ++ [newRecord], 1, 1⟩
    else
      ⟨.err 400 "Invalid action", store, 0, 0⟩

/-- The Supabase edge function `check-device-cooldown/index.ts`.  Identical
to the Vercel handler except that a missing `device_id` and an invalid
action are thrown as errors, caught by the catch-all which responds with
status 500. -/
def serveHandler (store : Store) (now : Int) (req : CheckRequest) : HandlerResult :=
  if req.device_id == "" then
    ⟨.err 500 "Device ID is required", store, 0, 0⟩
  else
    let cooldownThreshold := now - COOLDOWN_MS
    if req.action == "check" then
      let submissions := store.filter (matchesQuery req.device_id cooldownThreshold)
      match listMax? (submissions.map (fun r => r.submitted_at)) with
      | some lastSubmission =>
        ⟨.checkOk true (lastSubmission + COOLDOWN_MS - now), store, 1, 0⟩
      | none =>
        ⟨.checkOk false 0, store, 1, 0⟩
    else if req.action == "submit" then
      let existingSubmissions := store.filter (matchesQuery req.device_id cooldownThreshold)
      match existingSubmissions.head? with
      | some lastSubmission =>
        ⟨.submitBlocked (lastSubmission.submitted_at + COOLDOWN_MS - now), store, 1, 0⟩
      | none =>
        let newRecord : SubmissionRecord :=
          ⟨req.device_id, now, orNull req.name, orNull req.user_id_field⟩
        ⟨.submitOk (now + COOLDOWN_MS), store ++ [newRecord], 1, 1⟩
    else
      ⟨.err 500 "Invalid action", store, 0, 0⟩

/-- A check request body for device `d`. -/
def checkReq (d : String) : CheckRequest := ⟨d, "check", none, none⟩

/-- A submit request body for device `d`. -/
def submitReq (d : String) (nm uid : Option String) : CheckRequest := ⟨d, "submit", nm, uid⟩

/-- The check branch of the cooldown endpoint with its two `Date.now()`
readings modelled separately, as the source performs them: `now1` is the
reading that computes the window threshold (part_001 line 57), and
`now2` is the later reading that computes the remaining time (part_001
line 76), taken after the awaited store query.  The code applies no
clamp to the remaining value. -/
def checkTwoClock (store : Store) (now1 now2 : Int) (d : String) : HandlerResult :=
  if d == "" then
    ⟨.err 400 "Device ID is required", store, 0, 0⟩
  else
    let cooldownThreshold := now1 - COOLDOWN_MS
    let submissions := store.filter (matchesQuery d cooldownThreshold)
    match listMax? (submissions.map (fun r => r.submitted_at)) with
    | some lastSubmission =>
      ⟨.checkOk true (lastSubmission + COOLDOWN_MS - now2), store, 1, 0⟩
    | none =>
      ⟨.checkOk false 0, store, 1, 0⟩

/-! ## Client-side cooldown API wrappers (CooldownGuard.tsx / SecurePage.tsx) -/

/-- The result of a client `fetch` to the cooldown endpoint: either a
network error (the promise rejected) or a response with its `ok` flag and
the optional JSON body fields the client reads. -/
inductive FetchOutcome where
  | networkError
  | response (ok : Bool) (inCooldown : Option Bool) (remaining : Option Int)
      (success : Option Bool)
deriving Repr, DecidableEq

/-- True on a network error or a non-OK (non-2xx) response. -/
def FetchOutcome.isFailure : FetchOutcome → Bool
  | .networkError => true
  | .response ok _ _ _ => !ok

/-- What the client keeps of a check response. -/
structure CooldownStatus where
  inCooldown : Bool
  remaining : Int
deriving Repr, DecidableEq

/-- `checkServerCooldown` (CooldownGuard.tsx, and identically in the
server-backed SecurePage variant): on error or non-OK response returns
inCooldown=false, remaining=0; otherwise reads `data.inCooldown || false`
and `data.remaining || 0`. -/
def checkServerCooldown (o : FetchOutcome) : CooldownStatus :=
  match o with
  | .networkError => ⟨false, 0⟩
  | .response ok inC rem _ =>
    if ok then ⟨inC.getD false, rem.getD 0⟩ else ⟨false, 0⟩

/-- `recordServerSubmission` (server-backed SecurePage variant): on error
or non-OK response returns false; otherwise `data.success || false`. -/
def recordServerSubmission (o : FetchOutcome) : Bool :=
  match o with
  | .networkError => false
  | .response ok _ _ succ =>
    if ok then succ.getD false else false

/-! ## Admission Controller state machines -/

/-- The page access states (the second SecurePage variant's union type). -/
inductive AccessState where
  | checking
  | validating
  | granted
  | denied
  | expired
  | cooldown
deriving Repr, DecidableEq

/-- The outcome of the server-backed SecurePage initialization effect,
with flags recording which collaborators the run consulted. -/
structure InitOutcome where
  state : AccessState
  remaining : Int
  message : String
  sessionConsulted : Bool
  tokenRead : Bool
  tokenValidated : Bool
  sessionStored : Bool
deriving Repr, DecidableEq

/-- `initializeAndCheck` of the server-backed SecurePage variant: checks
the remote cooldown first; only when clear consults the session store;
only without a session reads the URL token; during the validation delay
re-checks the cooldown before running the token validator.  `cool` is the
first remote check's result, `recheck` the one inside the delay. -/
def initializeAndCheck (cool : CooldownStatus) (hasSession : Bool)
    (token : Option String) (recheck : CooldownStatus)
    (tokenValid : String → Bool) : InitOutcome :=
  if cool.inCooldown then
    ⟨.cooldown, cool.remaining, "COOLDOWN_ACTIVE", false, false, false, false⟩
  else if hasSession then
    ⟨.granted, 0, "SESSION_RESTORED", true, false, false, false⟩
  else
    match token with
    | none => ⟨.denied, 0, "NO_TOKEN_PROVIDED", true, true, false, false⟩
    | some t =>
      if recheck.inCooldown then
        ⟨.cooldown, recheck.remaining, "COOLDOWN_ACTIVE", true, true, false, false⟩
      else if tokenValid t then
        ⟨.granted, 0, "ACCESS_GRANTED", true, true, true, true⟩
      else
        ⟨.expired, 0, "TOKEN_EXPIRED", true, true, true, false⟩

/-- The cooldown-relevant UI state of the server-backed SecurePage. -/
structure PageUiState where
  state : AccessState
  remaining : Int
deriving Repr, DecidableEq

/-- The 1s local countdown tick of the server-backed SecurePage variant:
`setCooldownRemaining(prev => Math.max(0, prev - 1000))`; it never touches
the access state. -/
def securePageLocalTick (s : PageUiState) : PageUiState :=
  ⟨s.state, max 0 (s.remaining - 1000)⟩

/-- The 5s remote re-check tick of the server-backed SecurePage variant:
leaves cooldown (to granted) exactly when the remote check reports clear,
otherwise updates the remaining time from the server value. -/
def securePageServerTick (s : PageUiState) (chk : CooldownStatus) : PageUiState :=
  if chk.inCooldown then ⟨s.state, chk.remaining⟩ else ⟨.granted, 0⟩

/-- The cooldown-relevant state of CooldownGuard. -/
structure GuardState where
  inCooldown : Bool
  remaining : Int
deriving Repr, DecidableEq

/-- The 1s local countdown tick of CooldownGuard: decrements the remaining
time and, when the new value reaches zero, ALSO clears the inCooldown
flag (without consulting the server). -/
def guardLocalTick (s : GuardState) : GuardState :=
  let newValue := max 0 (s.remaining - 1000)
  ⟨if newValue == 0 then false else s.inCooldown, newValue⟩

/-- The 10s remote re-check tick of CooldownGuard. -/
def guardServerTick (s : GuardState) (chk : CooldownStatus) : GuardState :=
  if chk.inCooldown then ⟨s.inCooldown, chk.remaining⟩ else ⟨false, 0⟩

/-! ## Form-submit handlers of the two SecurePage variants -/

/-- Whitespace as stripped by the JS `String.prototype.trim`. -/
def isJsWhitespace (c : Char) : Bool :=
  c == ' ' || c == '\t' || c == '\n' || c == '\r' || c == '\u000b' || c == '\u000c'

/-- Model of the JS `trim()`: strip leading and trailing whitespace. -/
def jsTrim (s : String) : String :=
  String.mk (((s.data.dropWhile isJsWhitespace).reverse.dropWhile isJsWhitespace).reverse)

/-- Trace of one run of a SecurePage form-submit handler. -/
structure SubmitOutcome where
  /-- Whether the Cooldown Ledger submit (recordServerSubmission) was invoked. -/
  ledgerCalled : Bool
  /-- Whether that ledger submit returned success. -/
  ledgerSucceeded : Bool
  /-- Whether the Notification Sink (send-to-telegram) was invoked. -/
  sinkCalled : Bool
  /-- Whether the run ended with isSubmitted = true. -/
  submitted : Bool
deriving Repr, DecidableEq

/-- `handleSubmit` of the server-backed (second) SecurePage variant:
re-checks the remote cooldown, validates the four fields, then calls the
Cooldown Ledger submit FIRST and invokes the Notification Sink only when
it succeeded.  `ledgerResult` is what recordServerSubmission returns,
`sinkOk` whether the sink call succeeds. -/
def handleSubmitV2 (precheck : CooldownStatus)
    (subjectName nm userId weekNumber : String)
    (ledgerResult : Bool) (sinkOk : Bool) : SubmitOutcome :=
  if precheck.inCooldown then
    ⟨false, false, false, false⟩
  else if jsTrim subjectName == "" || jsTrim nm == "" || jsTrim userId == ""
      || jsTrim weekNumber == "" then
    ⟨false, false, false, false⟩
  else if ledgerResult then
    ⟨true, true, true, sinkOk⟩
  else
    ⟨true, false, false, false⟩

/-- `handleSubmit` of the first (localStorage-backed) SecurePage variant:
re-checks the local cooldown, validates the two fields, then invokes the
Notification Sink DIRECTLY — the Cooldown Ledger is never called; the
local cooldown timestamp is written only after the sink call succeeds. -/
def handleSubmitV1 (localInCooldown : Bool) (nm userId : String)
    (sinkOk : Bool) : SubmitOutcome :=
  if localInCooldown then
    ⟨false, false, false, false⟩
  else if jsTrim nm == "" || jsTrim userId == "" then
    ⟨false, false, false, false⟩
  else
    ⟨false, false, true, sinkOk⟩

/-! ## Device Identifier (deviceFingerprint.ts fallback and CooldownGuard) -/

/-- The browser signals both fallback generators read. -/
structure BrowserEnv where
  userAgent : String
  language : String
  screenWidth : Nat
  screenHeight : Nat
  colorDepth : Nat
  timezoneOffset : Int
  hardwareConcurrency : Nat
deriving Repr, DecidableEq

/-- JS ToInt32: wrap an integer into the signed 32-bit range. -/
def toInt32 (n : Int) : Int := (n + 2 ^ 31) % 2 ^ 32 - 2 ^ 31

/-- One step of the fingerprint hash loop:
hash = ((hash << 5) - hash) + charCode, coerced to int32 by `hash & hash`. -/
def hashStep (h c : Int) : Int := toInt32 (toInt32 (h * 32) - h + c)

/-- The joined fingerprint string.  `nav.hardwareConcurrency || 'unknown'`:
zero (and absent, which reads as undefined) is falsy. -/
def fingerprintString (env : BrowserEnv) : String :=
  String.intercalate "|"
    [env.userAgent, env.language, toString env.screenWidth,
     toString env.screenHeight, toString env.colorDepth,
     toString env.timezoneOffset,
     if env.hardwareConcurrency == 0 then "unknown"
     else toString env.hardwareConcurrency]

/-- The 32-bit string hash both generators compute. -/
def jsHash (s : String) : Int :=
  s.data.foldl (fun h c => hashStep h (Int.ofNat c.toNat)) 0

/-- Base-36 digit character, as produced by `Number.toString(36)`. -/
def base36DigitChar (n : Nat) : Char :=
  if n < 10 then Char.ofNat (48 + n) else Char.ofNat (87 + n)

/-- Base-36 digits accumulator. -/
def toBase36Go : Nat → List Char → List Char
  | 0, acc => acc
  | n + 1, acc => toBase36Go ((n + 1) / 36) (base36DigitChar ((n + 1) % 36) :: acc)
decreasing_by exact Nat.div_lt_self (Nat.succ_pos n) (by norm_num)

/-- `Math.abs(hash).toString(36)` for a natural number. -/
def toBase36 (n : Nat) : String :=
  if n = 0 then "0" else String.mk (toBase36Go n [])

/-- `generateFallbackId` (deviceFingerprint.ts): hash of the environment
signals plus a fresh random component.  `random` stands for the value of
`Math.random().toString(36).substring(2, 15)` drawn by this invocation. -/
def generateFallbackId (env : BrowserEnv) (random : String) : String :=
  "fallback-" ++ toBase36 (jsHash (fingerprintString env)).natAbs ++ "-" ++ random

/-- `generateDeviceId` (CooldownGuard.tsx): like the fallback generator
but with a timestamp component appended (`Date.now().toString(36)`). -/
def generateDeviceId (env : BrowserEnv) (random timestamp : String) : String :=
  toBase36 (jsHash (fingerprintString env)).natAbs ++ "-" ++ random ++ "-" ++ timestamp

/-! ## Helper lemmas -/

theorem listMax?_eq_none_iff (l : List Int) : listMax? l = none ↔ l = [] := by
  cases l with
  | nil => simp [listMax?]
  | cons x xs =>
    simp only [listMax?]
    cases listMax? xs <;> simp

theorem listMax?_mem : ∀ (l : List Int) (m : Int), listMax? l = some m → m ∈ l := by
  intro l
  induction l with
  | nil => intro m h; simp [listMax?] at h
  | cons x xs ih =>
    intro m h
    simp only [listMax?] at h
    cases hx : listMax? xs with
    | none =>
      rw [hx] at h
      simp at h
      simp [h]
    | some m' =>
      rw [hx] at h
      simp at h
      rcases max_choice x m' with h1 | h1 <;> rw [h1] at h
      · simp [h]
      · exact h ▸ List.mem_cons_of_mem x (ih m' hx)

theorem listMax?_is_ub : ∀ (l : List Int) (m : Int), listMax? l = some m →
    ∀ x ∈ l, x ≤ m := by
  intro l
  induction l with
  | nil => intro m _ x hx; simp at hx
  | cons y ys ih =>
    intro m h x hx
    simp only [listMax?] at h
    cases hy : listMax? ys with
    | none =>
      rw [hy] at h
      simp at h
      rcases List.mem_cons.mp hx with h1 | h1
      · omega
      · exact absurd h1 (by simp [(listMax?_eq_none_iff ys).mp hy])
    | some m' =>
      rw [hy] at h
      simp at h
      rcases List.mem_cons.mp hx with h1 | h1
      · subst h1; omega
      · have := ih m' hy x h1
        omega

theorem handler_check_of_max (s : Store) (now : Int) (d : String) (m : Int)
    (hd : d ≠ "")
    (h : listMax? ((s.filter (matchesQuery d (now - COOLDOWN_MS))).map
        (fun r => r.submitted_at)) = some m) :
    handler s now (checkReq d) = ⟨.checkOk true (m + COOLDOWN_MS - now), s, 1, 0⟩ := by
  simp only [handler, checkReq]
  rw [if_neg (by simpa using hd)]
  simp [h]

theorem handler_check_of_none (s : Store) (now : Int) (d : String)
    (hd : d ≠ "")
    (h : listMax? ((s.filter (matchesQuery d (now - COOLDOWN_MS))).map
        (fun r => r.submitted_at)) = none) :
    handler s now (checkReq d) = ⟨.checkOk false 0, s, 1, 0⟩ := by
  simp only [handler, checkReq]
  rw [if_neg (by simpa using hd)]
  simp [h]

theorem handler_submit_of_head (s : Store) (now : Int) (d : String)
    (nm uid : Option String) (r : SubmissionRecord) (hd : d ≠ "")
    (h : (s.filter (matchesQuery d (now - COOLDOWN_MS))).head? = some r) :
    handler s now (submitReq d nm uid) =
      ⟨.submitBlocked (r.submitted_at + COOLDOWN_MS - now), s, 1, 0⟩ := by
  simp only [handler, submitReq]
  rw [if_neg (by simpa using hd)]
  rw [if_neg (by decide)]
  simp [h]

theorem handler_submit_of_none (s : Store) (now : Int) (d : String)
    (nm uid : Option String) (hd : d ≠ "")
    (h : (s.filter (matchesQuery d (now - COOLDOWN_MS))).head? = none) :
    handler s now (submitReq d nm uid) =
      ⟨.submitOk (now + COOLDOWN_MS),
        s ++ [⟨d, now, orNull nm, orNull uid⟩], 1, 1⟩ := by
  simp only [handler, submitReq]
  rw [if_neg (by simpa using hd)]
  rw [if_neg (by decide)]
  simp [h]

end QrPulsePass

namespace QrPulsePass

/-! ## Claim theorems -/

theorem append_left_cancel_ne (p s t : String) (h : s ≠ t) : p ++ s ≠ p ++ t := by
  intro hEq
  apply h
  have h2 := congrArg String.data hEq
  simp only [String.data_append] at h2
  exact String.ext (List.append_cancel_left h2)

theorem append_right_cancel_ne (s t q : String) (h : s ≠ t) : s ++ q ≠ t ++ q := by
  intro hEq
  apply h
  have h2 := congrArg String.data hEq
  simp only [String.data_append] at h2
  exact String.ext (List.append_cancel_right h2)

/-- C3: In the Admission Controller the cooldown check has top priority:
whenever the remote check reports inCooldown=true, the resulting state is
cooldown with the reported remaining time, and neither the session store
nor the token validator is consulted. -/
theorem cooldown_top_priority (cool : CooldownStatus) (hasSession : Bool)
    (token : Option String) (recheck : CooldownStatus)
    (tokenValid : String → Bool) (h : cool.inCooldown = true) :
    (initializeAndCheck cool hasSession token recheck tokenValid).state = .cooldown ∧
    (initializeAndCheck cool hasSession token recheck tokenValid).remaining = cool.remaining ∧
    (initializeAndCheck cool hasSession token recheck tokenValid).sessionConsulted = false ∧
    (initializeAndCheck cool hasSession token recheck tokenValid).tokenRead = false ∧
    (initializeAndCheck cool hasSession token recheck tokenValid).tokenValidated = false := by
  simp [initializeAndCheck, h]

/-- Witness for C3: a run with a valid session and a valid token present,
yet the cooldown report wins. -/
theorem cooldown_top_priority_witness :
    (initializeAndCheck ⟨true, 42⟩ true (some "tok") ⟨false, 0⟩ (fun _ => true)).state
        = .cooldown ∧
    (initializeAndCheck ⟨true, 42⟩ true (some "tok") ⟨false, 0⟩ (fun _ => true)).remaining
        = (42 : Int) ∧
    (initializeAndCheck ⟨true, 42⟩ true (some "tok") ⟨false, 0⟩ (fun _ => true)).sessionConsulted
        = false ∧
    (initializeAndCheck ⟨true, 42⟩ true (some "tok") ⟨false, 0⟩ (fun _ => true)).tokenRead
        = false ∧
    (initializeAndCheck ⟨true, 42⟩ true (some "tok") ⟨false, 0⟩ (fun _ => true)).tokenValidated
        = false :=
  cooldown_top_priority ⟨true, 42⟩ true (some "tok") ⟨false, 0⟩ (fun _ => true) rfl

/-- C4 counterexample: in CooldownGuard, one local countdown tick from a
cooldown state with 1000ms remaining clears the inCooldown flag by
itself, with no remote re-check involved. -/
theorem guard_local_tick_exits_cooldown :
    (guardLocalTick ⟨true, 1000⟩).inCooldown = false ∧
    (guardLocalTick ⟨true, 1000⟩).remaining = 0 := by
  constructor <;> rfl

/-- C4 amended: in the server-backed SecurePage controller the local
countdown tick never leaves the cooldown state and a server tick that
still reports inCooldown keeps it, so that controller leaves cooldown
only when the remote re-check reports clear; in CooldownGuard, by
contrast, the local countdown reaching zero clears the cooldown flag by
itself. -/
theorem cooldown_exit_only_after_recheck (s : PageUiState) (chk : CooldownStatus)
    (hs : s.state = .cooldown) :
    (securePageLocalTick s).state = .cooldown ∧
    (chk.inCooldown = true → (securePageServerTick s chk).state = .cooldown) ∧
    ((securePageServerTick s chk).state ≠ .cooldown → chk.inCooldown = false) ∧
    (guardLocalTick ⟨true, 1000⟩).inCooldown = false := by
  refine ⟨by simp [securePageLocalTick, hs], ?_, ?_, rfl⟩
  · intro h
    simp [securePageServerTick, h, hs]
  · intro hne
    by_contra hc
    rw [Bool.not_eq_false] at hc
    exact hne (by simp [securePageServerTick, hc, hs])

/-- Witness for C4's amended theorem at a concrete cooldown state. -/
theorem cooldown_exit_only_after_recheck_witness :
    (securePageLocalTick ⟨.cooldown, 5000⟩).state = .cooldown ∧
    ((⟨true, 4000⟩ : CooldownStatus).inCooldown = true →
      (securePageServerTick ⟨.cooldown, 5000⟩ ⟨true, 4000⟩).state = .cooldown) ∧
    ((securePageServerTick ⟨.cooldown, 5000⟩ ⟨true, 4000⟩).state ≠ .cooldown →
      (⟨true, 4000⟩ : CooldownStatus).inCooldown = false) ∧
    (guardLocalTick ⟨true, 1000⟩).inCooldown = false :=
  cooldown_exit_only_after_recheck ⟨.cooldown, 5000⟩ ⟨true, 4000⟩ rfl

/-- C5 counterexample: in the first (localStorage-backed) SecurePage
variant, a submit run with the cooldown clear and non-empty fields
invokes the Notification Sink while the Cooldown Ledger submit is never
called at all. -/
theorem sink_without_ledger_v1 :
    (handleSubmitV1 false "a" "b" true).sinkCalled = true ∧
    (handleSubmitV1 false "a" "b" true).ledgerCalled = false := by
  constructor <;> rfl

/-- C5 amended: in the server-backed (second) SecurePage variant the
Notification Sink is invoked only when the Cooldown Ledger submit was
called and returned success (and the pre-check was clear); in the first
(localStorage-backed) variant the sink is invoked without any ledger
call. -/
theorem sink_only_after_ledger_success (precheck : CooldownStatus)
    (subjectName nm userId weekNumber : String) (ledgerResult sinkOk : Bool)
    (h : (handleSubmitV2 precheck subjectName nm userId weekNumber
        ledgerResult sinkOk).sinkCalled = true) :
    (handleSubmitV2 precheck subjectName nm userId weekNumber
        ledgerResult sinkOk).ledgerCalled = true ∧
    (handleSubmitV2 precheck subjectName nm userId weekNumber
        ledgerResult sinkOk).ledgerSucceeded = true ∧
    precheck.inCooldown = false ∧
    (handleSubmitV1 false "a" "b" true).ledgerCalled = false := by
  unfold handleSubmitV2 at h ⊢
  split_ifs at h ⊢ with h1 h2 h3
  exact ⟨rfl, rfl, by simpa using h1, rfl⟩

/-- Witness for C5's amended theorem: a clear pre-check, filled fields and
a successful ledger submit reach the sink. -/
theorem sink_only_after_ledger_success_witness :
    (handleSubmitV2 ⟨false, 0⟩ "s" "n" "u" "w" true true).ledgerCalled = true ∧
    (handleSubmitV2 ⟨false, 0⟩ "s" "n" "u" "w" true true).ledgerSucceeded = true ∧
    (⟨false, 0⟩ : CooldownStatus).inCooldown = false ∧
    (handleSubmitV1 false "a" "b" true).ledgerCalled = false :=
  sink_only_after_ledger_success ⟨false, 0⟩ "s" "n" "u" "w" true true (by decide)

/-- C8 counterexample: the Supabase edge function answers a request with a
missing (empty) device_id with HTTP status 500, not 400: the validation
throws and the catch-all responds 500. -/
theorem serve_missing_device_id_is_500 :
    (serveHandler [] 0 (checkReq "")).response.status = 500 ∧
    (serveHandler [] 0 (checkReq "")).response.status ≠ 400 := by
  constructor
  · rfl
  · decide

/-- C8 amended: on a request without device_id, the Vercel handler
returns 400 and the Supabase edge function returns 500; both perform no
store read or write and leave the store unchanged. -/
theorem missing_device_id_no_store_access (s : Store) (now : Int)
    (action : String) (nm uid : Option String) :
    handler s now ⟨"", action, nm, uid⟩
        = ⟨.err 400 "Device ID is required", s, 0, 0⟩ ∧
    serveHandler s now ⟨"", action, nm, uid⟩
        = ⟨.err 500 "Device ID is required", s, 0, 0⟩ := by
  constructor <;> simp [handler, serveHandler]

/-- C9: client failure handling is asymmetric: on any network error or
non-OK response, the read check returns inCooldown=false, remaining=0
(fail-open) while the submit recorder returns false (fail-closed). -/
theorem reads_fail_open_writes_fail_closed (o : FetchOutcome)
    (h : o.isFailure = true) :
    checkServerCooldown o = ⟨false, 0⟩ ∧ recordServerSubmission o = false := by
  cases o with
  | networkError => exact ⟨rfl, rfl⟩
  | response ok inC rem succ =>
    simp only [FetchOutcome.isFailure, Bool.not_eq_true'] at h
    simp [checkServerCooldown, recordServerSubmission, h]

/-- Witness for C9 at a concrete failing fetch (a network error). -/
theorem reads_fail_open_writes_fail_closed_witness :
    checkServerCooldown .networkError = ⟨false, 0⟩ ∧
    recordServerSubmission .networkError = false :=
  reads_fail_open_writes_fail_closed .networkError rfl

/-- C10: with the same environment signals, two invocations of the
fallback device-identifier generators that draw different random
components produce different identifiers: the fallback id is not stable
across reloads while primary fingerprinting keeps failing. -/
theorem fallback_id_not_stable (env : BrowserEnv) (r1 r2 ts : String)
    (h : r1 ≠ r2) :
    generateFallbackId env r1 ≠ generateFallbackId env r2 ∧
    generateDeviceId env r1 ts ≠ generateDeviceId env r2 ts := by
  constructor
  · exact append_left_cancel_ne _ _ _ h
  · exact append_right_cancel_ne _ _ _
      (append_right_cancel_ne _ _ _ (append_left_cancel_ne _ _ _ h))

/-- Witness for C10: two fresh runs of each generator on the same
environment with distinct random draws yield distinct identifiers. -/
theorem fallback_id_not_stable_witness :
    generateFallbackId ⟨"ua", "en", 1920, 1080, 24, -120, 8⟩ "aaa"
        ≠ generateFallbackId ⟨"ua", "en", 1920, 1080, 24, -120, 8⟩ "bbb" ∧
    generateDeviceId ⟨"ua", "en", 1920, 1080, 24, -120, 8⟩ "aaa" "t0"
        ≠ generateDeviceId ⟨"ua", "en", 1920, 1080, 24, -120, 8⟩ "bbb" "t0" :=
  fallback_id_not_stable ⟨"ua", "en", 1920, 1080, 24, -120, 8⟩ "aaa" "bbb" "t0"
    (by decide)

theorem listMax?_cons_isSome (x : Int) (xs : List Int) :
    ∃ m, listMax? (x :: xs) = some m := by
  simp only [listMax?]
  cases listMax? xs <;> exact ⟨_, rfl⟩

/-- C2: a submit for a device holding a record submitted within the last
30 minutes is rejected with HTTP 403, success=false, inCooldown=true and
a remaining time, and the store is left unchanged (no insert). -/
theorem submit_blocked_while_in_cooldown (s : Store) (now : Int) (d : String)
    (nm uid : Option String) (r : SubmissionRecord)
    (hd : d ≠ "") (hmem : r ∈ s) (hdev : r.device_id = d)
    (hlow : now - COOLDOWN_MS ≤ r.submitted_at) (_hhigh : r.submitted_at ≤ now) :
    ∃ rem,
      (handler s now (submitReq d nm uid)).response = .submitBlocked rem ∧
      (handler s now (submitReq d nm uid)).response.status = 403 ∧
      (handler s now (submitReq d nm uid)).response.successField = some false ∧
      (handler s now (submitReq d nm uid)).response.inCooldownField = some true ∧
      (handler s now (submitReq d nm uid)).response.remainingField = some rem ∧
      (handler s now (submitReq d nm uid)).store = s ∧
      (handler s now (submitReq d nm uid)).storeWrites = 0 := by
  have hfil : r ∈ s.filter (matchesQuery d (now - COOLDOWN_MS)) := by
    rw [List.mem_filter]
    exact ⟨hmem, by simp [matchesQuery, hdev, hlow]⟩
  cases hq : (s.filter (matchesQuery d (now - COOLDOWN_MS))).head? with
  | none =>
    rw [List.head?_eq_none_iff.mp hq] at hfil
    exact absurd hfil (List.not_mem_nil r)
  | some r0 =>
    rw [handler_submit_of_head s now d nm uid r0 hd hq]
    exact ⟨r0.submitted_at + COOLDOWN_MS - now, rfl, rfl, rfl, rfl, rfl, rfl, rfl⟩

/-- Witness for C2: a device that submitted 100ms ago is blocked at
time 200. -/
theorem submit_blocked_while_in_cooldown_witness :
    ∃ rem,
      (handler [⟨"dev", 100, none, none⟩] 200 (submitReq "dev" none none)).response
          = .submitBlocked rem ∧
      (handler [⟨"dev", 100, none, none⟩] 200 (submitReq "dev" none none)).response.status
          = 403 ∧
      (handler [⟨"dev", 100, none, none⟩] 200 (submitReq "dev" none none)).response.successField
          = some false ∧
      (handler [⟨"dev", 100, none, none⟩] 200 (submitReq "dev" none none)).response.inCooldownField
          = some true ∧
      (handler [⟨"dev", 100, none, none⟩] 200 (submitReq "dev" none none)).response.remainingField
          = some rem ∧
      (handler [⟨"dev", 100, none, none⟩] 200 (submitReq "dev" none none)).store
          = [⟨"dev", 100, none, none⟩] ∧
      (handler [⟨"dev", 100, none, none⟩] 200 (submitReq "dev" none none)).storeWrites = 0 :=
  submit_blocked_while_in_cooldown [⟨"dev", 100, none, none⟩] 200 "dev" none none
    ⟨"dev", 100, none, none⟩ (by decide) (by decide) rfl (by decide) (by decide)

/-- C6 counterexample: with 5ms of clock drift between the threshold
reading and the remaining-time reading (the awaited query sits between
them), a record exactly at the window edge passes the filter but yields
remaining = -5: the endpoint returns inCooldown=true with a negative
remaining value, since the code has no clamp. -/
theorem check_remaining_negative_with_drift :
    (checkTwoClock [⟨"d", 0, none, none⟩] 1800000 1800005 "d").response
        = .checkOk true (-5) ∧
    ((-5 : Int) < 0) := by
  refine ⟨rfl, by decide⟩

/-- C6 amended: check's remaining is cooldownDuration - (now2 - m) where
m is the most recent record inside the window computed from the earlier
reading now1, with no clamp; it is bounded below by now1 - now2 (the
negative of the intra-request clock drift) and is non-negative whenever
the two readings coincide, and 0 when the device is not in cooldown. -/
theorem check_remaining_drift_bound (s : Store) (now1 now2 : Int) (d : String)
    (hd : d ≠ "") :
    ∃ b rem,
      (checkTwoClock s now1 now2 d).response = .checkOk b rem ∧
      (checkTwoClock s now1 now2 d).response.status = 200 ∧
      (b = false → rem = 0) ∧
      (now2 = now1 → 0 ≤ rem ∧ max 0 rem = rem) ∧
      (b = true → ∃ m,
        listMax? ((s.filter (matchesQuery d (now1 - COOLDOWN_MS))).map
          (fun r => r.submitted_at)) = some m ∧
        rem = COOLDOWN_MS - (now2 - m) ∧
        now1 - now2 ≤ rem) := by
  have hd2 : (d == "") = false := by simpa using hd
  cases hq : listMax? ((s.filter (matchesQuery d (now1 - COOLDOWN_MS))).map
      (fun r => r.submitted_at)) with
  | none =>
    refine ⟨false, 0, ?_, ?_, fun _ => rfl, fun _ => ⟨le_refl 0, rfl⟩, by simp⟩
    · simp [checkTwoClock, hd2, hq]
    · simp [checkTwoClock, hd2, hq, HandlerResponse.status]
  | some m =>
    have hmem := listMax?_mem _ _ hq
    rw [List.mem_map] at hmem
    obtain ⟨r, hr, hrm⟩ := hmem
    rw [List.mem_filter] at hr
    have hrm2 : r.submitted_at = m := hrm
    have hge : now1 - COOLDOWN_MS ≤ m := by
      have h2 := hr.2
      simp only [matchesQuery, Bool.and_eq_true, decide_eq_true_eq] at h2
      obtain ⟨-, h3⟩ := h2
      omega
    refine ⟨true, m + COOLDOWN_MS - now2, ?_, ?_, by simp, ?_, ?_⟩
    · simp [checkTwoClock, hd2, hq]
    · simp [checkTwoClock, hd2, hq, HandlerResponse.status]
    · intro h
      subst h
      exact ⟨by omega, max_eq_right (by omega)⟩
    · exact fun _ => ⟨m, rfl, by omega, by omega⟩

/-- Witness for C6's amended theorem: with coinciding clock readings on a
store with one in-window record, remaining is non-negative and follows
the formula. -/
theorem check_remaining_drift_bound_witness :
    ∃ b rem,
      (checkTwoClock [⟨"dev", 100, none, none⟩] 200 200 "dev").response = .checkOk b rem ∧
      (checkTwoClock [⟨"dev", 100, none, none⟩] 200 200 "dev").response.status = 200 ∧
      (b = false → rem = 0) ∧
      ((200 : Int) = 200 → 0 ≤ rem ∧ max 0 rem = rem) ∧
      (b = true → ∃ m,
        listMax? ((([⟨"dev", 100, none, none⟩] : Store).filter
          (matchesQuery "dev" (200 - COOLDOWN_MS))).map
          (fun r => r.submitted_at)) = some m ∧
        rem = COOLDOWN_MS - (200 - m) ∧
        (200 : Int) - 200 ≤ rem) :=
  check_remaining_drift_bound [⟨"dev", 100, none, none⟩] 200 200 "dev" (by decide)

/-- C1: immediately after a successful submit for device d at time `now`,
a check for d evaluated at any instant t with now ≤ t < now + 30min
reports inCooldown=true with remaining = now + 30min - t, which is
positive and at most 1800000ms. -/
theorem check_in_cooldown_after_submit (s : Store) (now t : Int) (d : String)
    (nm uid : Option String) (u : Int)
    (hsub : (handler s now (submitReq d nm uid)).response = .submitOk u)
    (h1 : now ≤ t) (h2 : t < now + COOLDOWN_MS) :
    (handler (handler s now (submitReq d nm uid)).store t (checkReq d)).response
        = .checkOk true (now + COOLDOWN_MS - t) ∧
    0 < now + COOLDOWN_MS - t ∧ now + COOLDOWN_MS - t ≤ COOLDOWN_MS := by
  have hd : d ≠ "" := by
    intro h
    subst h
    simp [handler, submitReq] at hsub
  cases hq : (s.filter (matchesQuery d (now - COOLDOWN_MS))).head? with
  | some r0 =>
    rw [handler_submit_of_head s now d nm uid r0 hd hq] at hsub
    simp at hsub
  | none =>
    have hnot : ∀ r ∈ s, ¬ (matchesQuery d (now - COOLDOWN_MS) r = true) := by
      intro r hr
      simpa using
        List.filter_eq_nil_iff.mp (List.head?_eq_none_iff.mp hq) r hr
    rw [handler_submit_of_none s now d nm uid hd hq]
    have hmatchNew :
        matchesQuery d (t - COOLDOWN_MS) ⟨d, now, orNull nm, orNull uid⟩ = true := by
      have hle : t - COOLDOWN_MS ≤ now := by omega
      simp [matchesQuery, hle]
    have hs2 : s.filter (matchesQuery d (t - COOLDOWN_MS)) = [] := by
      rw [List.filter_eq_nil_iff]
      intro r hr hmatch
      simp only [matchesQuery, Bool.and_eq_true, beq_iff_eq,
        decide_eq_true_eq] at hmatch
      have hold := hnot r hr
      simp only [matchesQuery, Bool.and_eq_true, beq_iff_eq,
        decide_eq_true_eq, not_and, not_le] at hold
      have ha := hold hmatch.1
      have hb := hmatch.2
      omega
    have hfil : (s ++ ([⟨d, now, orNull nm, orNull uid⟩] : Store)).filter
        (matchesQuery d (t - COOLDOWN_MS)) = ([⟨d, now, orNull nm, orNull uid⟩] : Store) := by
      rw [List.filter_append, hs2, List.nil_append, List.filter_cons,
        if_pos hmatchNew, List.filter_nil]
    have hmax : listMax? (((s ++ ([⟨d, now, orNull nm, orNull uid⟩] : Store)).filter
        (matchesQuery d (t - COOLDOWN_MS))).map (fun r => r.submitted_at))
        = some now := by
      rw [hfil]
      rfl
    refine ⟨?_, by omega, by omega⟩
    rw [handler_check_of_max (s ++ ([⟨d, now, orNull nm, orNull uid⟩] : Store)) t d now hd hmax]

/-- Witness for C1: after a submit on the empty store at time 0, a check
at time 1 reports the near-full cooldown. -/
theorem check_in_cooldown_after_submit_witness :
    (handler (handler [] 0 (submitReq "dev" none none)).store 1 (checkReq "dev")).response
        = .checkOk true (0 + COOLDOWN_MS - 1) ∧
    0 < 0 + COOLDOWN_MS - 1 ∧ 0 + COOLDOWN_MS - 1 ≤ COOLDOWN_MS :=
  check_in_cooldown_after_submit [] 0 1 "dev" none none (0 + COOLDOWN_MS)
    rfl (by decide) (by decide)

/-- C7 counterexample: on a store holding two in-window records for the
same device (older row first in database order), check reports the
remaining time of the most recent record (1799200ms) while the submit
pre-check, whose query has no ordering, reports the remaining time of the
first row returned (1799100ms): submit does not compute remaining exactly
as check does. -/
theorem submit_remaining_differs_from_check :
    (handler [⟨"d", 100, none, none⟩, ⟨"d", 200, none, none⟩] 1000
        (checkReq "d")).response = .checkOk true 1799200 ∧
    (handler [⟨"d", 100, none, none⟩, ⟨"d", 200, none, none⟩] 1000
        (submitReq "d" none none)).response = .submitBlocked 1799100 ∧
    (1799100 : Int) ≠ 1799200 := by
  refine ⟨rfl, rfl, by decide⟩

/-- C7 amended: the submit pre-check decides inCooldown by the same rule
as check (existence of an in-window record for the device), but when
blocked its remaining time comes from the first row the unordered query
returns; it equals the value check computes whenever the device has at
most one in-window record. -/
theorem submit_precheck_same_rule (s : Store) (now : Int) (d : String)
    (nm uid : Option String) (hd : d ≠ "") :
    ((∃ rem, (handler s now (checkReq d)).response = .checkOk true rem) ↔
      (∃ rem, (handler s now (submitReq d nm uid)).response = .submitBlocked rem)) ∧
    ((s.filter (matchesQuery d (now - COOLDOWN_MS))).length ≤ 1 →
      ∀ rem rem2, (handler s now (checkReq d)).response = .checkOk true rem →
        (handler s now (submitReq d nm uid)).response = .submitBlocked rem2 →
        rem2 = rem) := by
  cases hf : s.filter (matchesQuery d (now - COOLDOWN_MS)) with
  | nil =>
    have hq : listMax? ((s.filter (matchesQuery d (now - COOLDOWN_MS))).map
        (fun r => r.submitted_at)) = none := by
      rw [hf]
      rfl
    have hh : (s.filter (matchesQuery d (now - COOLDOWN_MS))).head? = none := by
      rw [hf]
      rfl
    rw [handler_check_of_none s now d hd hq,
      handler_submit_of_none s now d nm uid hd hh]
    refine ⟨⟨?_, ?_⟩, ?_⟩
    · rintro ⟨rem, h⟩
      simp at h
    · rintro ⟨rem, h⟩
      simp at h
    · intro _ rem rem2 h
      simp at h
  | cons a l2 =>
    have hh : (s.filter (matchesQuery d (now - COOLDOWN_MS))).head? = some a := by
      rw [hf]
      rfl
    obtain ⟨m, hm⟩ : ∃ m, listMax? ((s.filter (matchesQuery d (now - COOLDOWN_MS))).map
        (fun r => r.submitted_at)) = some m := by
      rw [hf]
      exact listMax?_cons_isSome _ _
    rw [handler_check_of_max s now d m hd hm,
      handler_submit_of_head s now d nm uid a hd hh]
    refine ⟨⟨fun _ => ⟨_, rfl⟩, fun _ => ⟨_, rfl⟩⟩, ?_⟩
    intro hlen rem rem2 hcheck hsubmit
    have hl2 : l2 = [] := by
      have : l2.length = 0 := by
        simp only [List.length_cons] at hlen
        omega
      exact List.length_eq_zero.mp this
    subst hl2
    rw [hf] at hm
    have hma : m = a.submitted_at := by
      simp [listMax?] at hm
      omega
    simp only [HandlerResponse.checkOk.injEq] at hcheck
    simp only [HandlerResponse.submitBlocked.injEq] at hsubmit
    omega

/-- Witness for C7's amended theorem on a store with a single in-window
record, where the two computations agree. -/
theorem submit_precheck_same_rule_witness :
    ((∃ rem, (handler [⟨"dev", 100, none, none⟩] 200 (checkReq "dev")).response
        = .checkOk true rem) ↔
      (∃ rem, (handler [⟨"dev", 100, none, none⟩] 200
        (submitReq "dev" none none)).response = .submitBlocked rem)) ∧
    ((([⟨"dev", 100, none, none⟩] : Store).filter
        (matchesQuery "dev" (200 - COOLDOWN_MS))).length ≤ 1 →
      ∀ rem rem2, (handler [⟨"dev", 100, none, none⟩] 200 (checkReq "dev")).response
          = .checkOk true rem →
        (handler [⟨"dev", 100, none, none⟩] 200
          (submitReq "dev" none none)).response = .submitBlocked rem2 →
        rem2 = rem) :=
  submit_precheck_same_rule [⟨"dev", 100, none, none⟩] 200 "dev" none none (by decide)

end QrPulsePass
